import Mathlib

/-!
Verification of the conversational orchestration core of the fridday repository:
query router (src/utils/query_router.py), reflection engine
(src/utils/react_reasoning.py), context memory (src/chatbot/memory.py) and the
background message-lifecycle task (src/chatbot/chatbot.py).  Python strings are
embedded as `String`/`List Char`; the external LLM service and the persistence
layer are oracles (their outcomes are parameters); fallible operations return
`Except`.
-/

namespace Fridday

/-! ### Python string primitives -/

/-- Models Python `str.lower()` per character, for the ASCII range and the
Latin-1 letters that occur in the routed utterances (`À`..`Þ` map down by 32,
`×` excluded, as in Unicode simple case folding). -/
def pyToLower (c : Char) : Char :=
  let n := c.toNat
  if 65 ≤ n ∧ n ≤ 90 then Char.ofNat (n + 32)
  else if 192 ≤ n ∧ n ≤ 222 ∧ n ≠ 215 then Char.ofNat (n + 32)
  else c

/-- Models Python `str.upper()` per character for the same ranges
(`ß`/`ÿ` have no Latin-1 uppercase and stay put; they never occur here). -/
def pyToUpper (c : Char) : Char :=
  let n := c.toNat
  if 97 ≤ n ∧ n ≤ 122 then Char.ofNat (n - 32)
  else if 224 ≤ n ∧ n ≤ 254 ∧ n ≠ 247 then Char.ofNat (n - 32)
  else c

/-- Characters removed by Python `str.strip()` (the ASCII whitespace set;
exotic Unicode spaces do not occur in the modelled inputs). -/
def isPySpace (c : Char) : Bool :=
  c == ' ' || c == '\t' || c == '\n' || c == '\r' || c == '\x0b' || c == '\x0c'

/-- Models Python `str.strip()`: drop whitespace from both ends. -/
def pyStrip (l : List Char) : List Char :=
  ((l.dropWhile isPySpace).reverse.dropWhile isPySpace).reverse

/-- Python regex `\w` (Unicode word character) restricted to ASCII
letters/digits/underscore plus the Latin-1 letters (which cover every accented
character appearing in the pattern tables and test utterances). -/
def isWordChar (c : Char) : Bool :=
  let n := c.toNat
  (48 ≤ n && n ≤ 57) || (65 ≤ n && n ≤ 90) || (97 ≤ n && n ≤ 122) || n == 95 ||
    (192 ≤ n && n ≤ 255 && !(n == 215) && !(n == 247))

/-- Models the Python `in` operator on strings: substring containment
(the empty needle is contained in everything). -/
def isSubstrOf (needle : List Char) (hay : List Char) : Bool :=
  match hay with
  | [] => needle.isEmpty
  | _ :: t => needle.isPrefixOf hay || isSubstrOf needle t

/-! ### Regular-expression engine

The router's patterns use only: literal characters, alternation `(a|b)`,
word boundaries `\b`, `\w*`, and `.*`.  `Rx` covers exactly that fragment
(stars only over single-character classes, as in the source patterns), and
`reSearch` implements Python `re.search` semantics: a match may start at any
position; `\b` consults the character before the current position. -/

inductive Rx where
  | eps : Rx
  | cls (p : Char → Bool) : Rx
  | star (p : Char → Bool) : Rx
  | cat (a b : Rx) : Rx
  | alt (a b : Rx) : Rx
  | wb : Rx

/-- Word-character test on an optional character (`none` = string edge). -/
def isWordOpt : Option Char → Bool
  | some c => isWordChar c
  | none => false

/-- A `\b` boundary holds between two positions iff exactly one side is a
word character. -/
def isBoundary (prev next : Option Char) : Bool :=
  isWordOpt prev != isWordOpt next

/-- All ways `p*` can consume a prefix of `s`; each outcome is the last
consumed character (for later boundary tests) and the rest of the input. -/
def starRun (p : Char → Bool) : Option Char → List Char → List (Option Char × List Char)
  | prev, [] => [(prev, [])]
  | prev, c :: rest =>
    (prev, c :: rest) :: (if p c then starRun p (some c) rest else [])

/-- Nondeterministic matcher: all `(lastChar, remainder)` pairs reachable by
matching `r` at the start of `s`, given the character just before `s`. -/
def mrun : Rx → Option Char → List Char → List (Option Char × List Char)
  | .eps, prev, s => [(prev, s)]
  | .cls _, _, [] => []
  | .cls p, _, c :: rest => if p c then [(some c, rest)] else []
  | .star p, prev, s => starRun p prev s
  | .cat a b, prev, s => ((mrun a prev s).map (fun pr => mrun b pr.1 pr.2)).flatten
  | .alt a b, prev, s => mrun a prev s ++ mrun b prev s
  | .wb, prev, s => if isBoundary prev s.head? then [(prev, s)] else []

/-- Scan every start position (tracking the preceding character). -/
def rsearchAux (r : Rx) : Option Char → List Char → Bool
  | prev, [] => !(mrun r prev []).isEmpty
  | prev, c :: rest => !(mrun r prev (c :: rest)).isEmpty || rsearchAux r (some c) rest

/-- Models Python `re.search(pattern, s) is not None`. -/
def reSearch (r : Rx) (s : List Char) : Bool :=
  rsearchAux r none s

/-- Literal string pattern. -/
def lit (s : String) : Rx :=
  s.toList.foldr (fun c r => Rx.cat (Rx.cls (fun d => d == c)) r) Rx.eps

/-- Concatenation of a pattern list. -/
def rxSeq (rs : List Rx) : Rx :=
  rs.foldr Rx.cat Rx.eps

/-- Alternation group `(a|b|...)`; never applied to the empty list. -/
def grp : List Rx → Rx
  | [] => Rx.eps
  | [r] => r
  | r :: rest => Rx.alt r (grp rest)

/-- The pattern `\w*`. -/
def wstar : Rx := Rx.star isWordChar

/-- The pattern `.*` (`.` is any character except newline). -/
def dotStar : Rx := Rx.star (fun c => c != '\n')

/-- A stem followed by `\w*`, e.g. `obrigad\w*`. -/
def litW (s : String) : Rx := Rx.cat (lit s) wstar

/-! ### Query Router (src/utils/query_router.py)

`QueryRouter._quick_pattern_route` lowercases and strips the utterance, then
tries the `direct_patterns` list in order and, failing that, the
`react_patterns` list; `QueryRouter.route_query` falls back to
`QueryRouter._llm_route` only when neither list matched. -/

inductive Route where
  | direct : Route
  | react : Route
deriving DecidableEq

/-- The `direct_patterns` table of `_quick_pattern_route`, in source order. -/
def directPatterns : List Rx :=
  [ rxSeq [Rx.wb, grp [lit "olá", lit "oi", lit "hello", lit "hi"], Rx.wb],
    rxSeq [Rx.wb, lit "se apresent", wstar, Rx.wb],
    rxSeq [Rx.wb, grp [litW "obrigad", litW "thank"], Rx.wb],
    rxSeq [Rx.wb, grp [lit "como vai", lit "how are you"], Rx.wb],
    rxSeq [Rx.wb, grp [lit "quem é você", lit "who are you"], Rx.wb],
    rxSeq [Rx.wb, grp [lit "o que é", lit "what is"], Rx.wb],
    rxSeq [Rx.wb, grp [lit "como funciona", lit "how does"], Rx.wb],
    rxSeq [Rx.wb, grp [lit "explica", lit "explain", lit "me conta", lit "tell me"], Rx.wb],
    rxSeq [Rx.wb, grp [lit "ajuda", lit "help", lit "ajudar"], Rx.wb, dotStar,
           Rx.wb, grp [lit "com", lit "with"], Rx.wb],
    rxSeq [Rx.wb, grp [lit "qual", lit "which", lit "que"], Rx.wb, dotStar,
           Rx.wb, grp [lit "melhor", lit "better", litW "recomenda", lit "recommend"], Rx.wb] ]

/-- The `react_patterns` table of `_quick_pattern_route`, in source order. -/
def reactPatterns : List Rx :=
  [ rxSeq [Rx.wb, grp [litW "analis", litW "analyz"], Rx.wb, dotStar,
           Rx.wb, grp [litW "competitiv", litW "concorr", lit "mercado completo",
                       lit "market analysis"], Rx.wb],
    rxSeq [Rx.wb, grp [litW "desenvolv", lit "criar", lit "create"], Rx.wb, dotStar,
           Rx.wb, grp [lit "estratégia completa", lit "plano detalhado",
                       lit "business case"], Rx.wb],
    rxSeq [Rx.wb, grp [lit "swot completa", lit "porter", lit "canvas"], Rx.wb, dotStar,
           Rx.wb, grp [litW "anális", lit "framework"], Rx.wb],
    rxSeq [Rx.wb, grp [litW "defin", litW "estabelec"], Rx.wb, dotStar,
           Rx.wb, grp [litW "kpi", litW "métrica"], Rx.wb, dotStar,
           Rx.wb, grp [litW "completo", litW "sistema"], Rx.wb],
    rxSeq [Rx.wb, grp [litW "otimiz", litW "reestrutur"], Rx.wb, dotStar,
           Rx.wb, grp [rxSeq [lit "processo", wstar, lit " completo"],
                       lit "operação inteira"], Rx.wb],
    rxSeq [Rx.wb, grp [litW "avali", litW "identif"], Rx.wb, dotStar,
           Rx.wb, grp [rxSeq [lit "risco", wstar, lit " completo"],
                       lit "análise de risco"], Rx.wb],
    rxSeq [Rx.wb, grp [lit "roadmap", lit "roteiro"], Rx.wb, dotStar,
           Rx.wb, grp [lit "implementação", lit "transformação digital"], Rx.wb],
    rxSeq [Rx.wb, grp [litW "plano", lit "estratégia"], Rx.wb, dotStar,
           Rx.wb, grp [rxSeq [lit "entrada", dotStar, lit "mercado"],
                       lit "expansão", lit "transformação"], Rx.wb] ]

/-- The normalization `text = user_input.lower().strip()` at the top of
`_quick_pattern_route`. -/
def pyNormalize (s : String) : List Char :=
  pyStrip (s.toList.map pyToLower)

/-- Models `QueryRouter._quick_pattern_route`: first matching direct pattern
wins, then the react patterns, else `None` (the for-loops return at the first
match, which coincides with `List.any` because every match returns the same
route). -/
def quickPatternRoute (userInput : String) : Option Route :=
  let text := pyNormalize userInput
  if directPatterns.any (fun p => reSearch p text) then some Route.direct
  else if reactPatterns.any (fun p => reSearch p text) then some Route.react
  else none

/-- Models `QueryRouter._llm_route` with the classifier call as an oracle:
`Except.error` is an exception in `self.llm.invoke`, `Except.ok reply` its
reply text.  The source strips and uppercases the reply and returns `"react"`
iff `"REACT"` occurs in it; every exception is caught and yields `"direct"`
(the conversation context only shapes the prompt, never the control flow). -/
def llmRoute (llmResult : Except Unit String) : Route :=
  match llmResult with
  | Except.error _ => Route.direct
  | Except.ok reply =>
    if isSubstrOf "REACT".toList ((pyStrip reply.toList).map pyToUpper) then Route.react
    else Route.direct

/-- Models `QueryRouter.route_query`; the second component records whether the
LLM fallback was invoked. -/
def routeQuery (userInput : String) (llmResult : Except Unit String) : Route × Bool :=
  match quickPatternRoute userInput with
  | some r => (r, false)
  | none => (llmRoute llmResult, true)

/-! ### Reflection Engine (src/utils/react_reasoning.py)

`ReActReasoning._create_reflection_workflow` wires generate → reflect →
(revise | finalize).  The three LLM replies are an oracle; timestamps carry no
information used by any property and are omitted from the step records. -/

/-- One entry of `current_steps` (the `step`/`type`/`content` fields of the
dicts built in the workflow nodes). -/
structure Step where
  num : Nat
  kind : String
  content : String
deriving DecidableEq

/-- The `ReflectionState` TypedDict fields that the workflow mutates. -/
structure RState where
  draft : String
  reflection : String
  finalResponse : String
  needsRevision : Bool
  iterationCount : Nat
  currentSteps : List Step
deriving DecidableEq

/-- Replies of the (up to three) LLM invocations of one reflection run. -/
structure Oracle where
  genContent : String
  reflectContent : String
  reviseContent : String
deriving DecidableEq

/-- Models `_update_reflection_steps_in_db`: when a supabase client and a
conversation id are present (`hasClient`), the step is appended to
`current_steps` and pushed to the message row (a persistence error there is
printed and swallowed, so the in-memory trace advances regardless); with no
client/id the function returns before appending. -/
def updateStepsInDb (hasClient : Bool) (s : RState) (step : Step) : RState :=
  if hasClient then { s with currentSteps := s.currentSteps ++ [step] } else s

/-- The revision heuristic inside `reflect_on_response`: scan the lowercased
critique for any of the four trigger words. -/
def needsRevisionOf (critique : String) : Bool :=
  let low := critique.toList.map pyToLower
  isSubstrOf "improve".toList low || isSubstrOf "better".toList low ||
    isSubstrOf "missing".toList low || isSubstrOf "add".toList low

/-- Models the `generate_response` workflow node. -/
def generateResponse (o : Oracle) (hasClient : Bool) (s : RState) : RState :=
  let s := updateStepsInDb hasClient s
    ⟨1, "generation_start", "Starting to generate response..."⟩
  let s := { s with draft := o.genContent, iterationCount := s.iterationCount + 1 }
  updateStepsInDb hasClient s
    ⟨2, "generation",
     "Initial response generated (" ++ toString o.genContent.length ++ " chars)"⟩

/-- Models the `reflect_on_response` workflow node (the step-4 content is the
critique truncated to 200 characters with an ellipsis). -/
def reflectOnResponse (o : Oracle) (hasClient : Bool) (s : RState) : RState :=
  let s := updateStepsInDb hasClient s
    ⟨3, "reflection_start", "Analyzing response quality..."⟩
  let s := { s with reflection := o.reflectContent,
                    needsRevision := needsRevisionOf o.reflectContent }
  updateStepsInDb hasClient s
    ⟨4, "reflection",
     if o.reflectContent.length > 200
     then String.mk (o.reflectContent.toList.take 200) ++ "..."
     else o.reflectContent⟩

/-- Models the `revise_response` workflow node. -/
def reviseResponse (o : Oracle) (hasClient : Bool) (s : RState) : RState :=
  let s := updateStepsInDb hasClient s
    ⟨5, "revision_start", "Improving response based on reflection..."⟩
  let s := { s with finalResponse := o.reviseContent,
                    iterationCount := s.iterationCount + 1 }
  updateStepsInDb hasClient s
    ⟨6, "revision",
     "Response revised (" ++ toString o.reviseContent.length ++ " chars)"⟩

/-- Models the `finalize_response` workflow node: the draft becomes final and
a single step (numbered 5) is appended. -/
def finalizeResponse (hasClient : Bool) (s : RState) : RState :=
  let s := { s with finalResponse := s.draft }
  updateStepsInDb hasClient s
    ⟨5, "finalization", "Response approved without revision"⟩

/-- The initial `ReflectionState` built in `process_with_reasoning`. -/
def initialRState : RState :=
  ⟨"", "", "", false, 0, []⟩

/-- Models one run of the compiled workflow (`generate` → `reflect` →
`should_revise` → `revise` or `finalize` → END). -/
def runReflection (o : Oracle) (hasClient : Bool) : RState :=
  let s1 := generateResponse o hasClient initialRState
  let s2 := reflectOnResponse o hasClient s1
  if s2.needsRevision then reviseResponse o hasClient s2
  else finalizeResponse hasClient s2

/-- The `step_count` field of the `process_with_reasoning` result is the
final `iteration_count`. -/
def stepCount (o : Oracle) (hasClient : Bool) : Nat :=
  (runReflection o hasClient).iterationCount

/-- Strictly increasing sequence numbers along a trace. -/
def stepsStrictlyIncreasing (l : List Step) : Prop :=
  List.Chain' (fun a b => a.num < b.num) l

/-! ### Context Memory (src/chatbot/memory.py)

`ChatbotMemory` wraps a LangChain `ConversationSummaryBufferMemory`.  The
library object is modelled from its semantics: `chat_memory.add_message` /
`add_user_message` / `add_ai_message` append to the raw message buffer and
nothing else — pruning (move oldest messages out and summarize them via an
LLM call) happens only inside the library's `save_context`, which
`ChatbotMemory` never calls. -/

/-- A buffered chat message (role plus content). -/
structure LCMsg where
  role : String
  content : String
deriving DecidableEq

/-- The LangChain `ConversationSummaryBufferMemory` state visible to this
code: the raw buffer, the `moving_summary_buffer` string and the configured
token budget. -/
structure SummaryBufferMemory where
  buffer : List LCMsg
  movingSummary : String
  maxTokenLimit : Nat
deriving DecidableEq

/-- `self.memory.chat_memory.add_message(...)` (and the `add_user_message` /
`add_ai_message` shorthands): appends to the buffer, performs no pruning and
never touches the summary. -/
def chatMemoryAddMessage (m : SummaryBufferMemory) (msg : LCMsg) : SummaryBufferMemory :=
  { m with buffer := m.buffer ++ [msg] }

/-- The memory as constructed in `ChatbotMemory.__init__` before history is
loaded (`max_token_limit` defaults to 2000; the summary starts empty). -/
def freshMemory : SummaryBufferMemory :=
  ⟨[], "", 2000⟩

/-- A persisted `conversations` row (the fields this code reads). -/
structure Row where
  id : String
  role : String
  content : String
deriving DecidableEq

/-- Models `ChatbotMemory._load_conversation_history` on a successful select:
rows with role `user`/`assistant` become messages, each added with
`chat_memory.add_message` (a select exception would be printed and swallowed,
leaving the memory empty). -/
def loadConversationHistory (rows : List Row) (m : SummaryBufferMemory) : SummaryBufferMemory :=
  (rows.filter (fun r => r.role == "user" || r.role == "assistant")).foldl
    (fun acc r => chatMemoryAddMessage acc ⟨r.role, r.content⟩) m

/-- The token estimate the summariziation budget is compared against, as the
spec's "estimated total size": the standard four-characters-per-token
heuristic summed over the buffer. -/
def estimatedTokens (l : List LCMsg) : Nat :=
  (l.map (fun m => m.content.length / 4)).sum

/-- Models `ChatbotMemory._persist_message`: the supabase insert is an oracle
returning the new row id; on an exception the error is printed and `""` is
returned. -/
def persistMessage (insertResult : Except String String) : String :=
  match insertResult with
  | Except.ok rowId => rowId
  | Except.error _ => ""

/-- Models `ChatbotMemory.add_user_message`: the LangChain buffer advances
first, then the insert is attempted (`_md` is the metadata map passed to the
insert; it influences only the stored row, hence only the oracle). -/
def addUserMessage (m : SummaryBufferMemory) (content : String) (_md : List (String × String))
    (insertResult : Except String String) : SummaryBufferMemory × String :=
  (chatMemoryAddMessage m ⟨"user", content⟩, persistMessage insertResult)

/-- Models `ChatbotMemory.add_ai_message` (same shape, role `assistant`). -/
def addAiMessage (m : SummaryBufferMemory) (content : String) (_md : List (String × String))
    (insertResult : Except String String) : SummaryBufferMemory × String :=
  (chatMemoryAddMessage m ⟨"assistant", content⟩, persistMessage insertResult)

/-! ### Background message processing (src/chatbot/chatbot.py)

`Chatbot._process_message_background` re-fetches the placeholder message,
rebuilds the recent context, derives a route from the last user utterance with
a keyword substring check, generates, and writes `status=complete`; its outer
`except` converts any exception into a `status=failed` write whose own failure
is swallowed by a bare `except: pass`. -/

/-- Python `l[-k:]` — the last `k` elements, except that `k = 0` yields the
whole list (`l[-0:]` is `l[0:]`). -/
def pyTakeLast (k : Nat) (l : List LCMsg) : List LCMsg :=
  if k = 0 then l else l.drop (l.length - k)

/-- The `context_messages` construction: drop the placeholder row itself,
keep role/content pairs, take the last `context_limit` entries. -/
def bgContext (rows : List Row) (messageId : String) (contextLimit : Nat) : List LCMsg :=
  pyTakeLast contextLimit
    ((rows.filter (fun r => !(r.id == messageId))).map (fun r => ⟨r.role, r.content⟩))

/-- The reversed scan for the most recent `user` entry (empty string when the
context holds none). -/
def bgLastUserMessage (ctx : List LCMsg) : String :=
  match ctx.reverse.find? (fun m => m.role == "user") with
  | some m => m.content
  | none => ""

/-- The `complex_keywords` list of `_process_message_background` (identical in
`update_message_with_profile`). -/
def complexKeywords : List String :=
  ["pesquisar", "buscar", "comparar", "analisar", "research", "search", "compare", "analyze"]

/-- The background task's route derivation: `react` iff the last user message
is nonempty and some keyword occurs in its lowercasing, else `direct`. -/
def bgRoute (lastUserMessage : String) : Route :=
  if lastUserMessage != "" &&
      complexKeywords.any (fun k => isSubstrOf k.toList (lastUserMessage.toList.map pyToLower))
  then Route.react else Route.direct

/-- Terminal statuses the background task can write. -/
inductive WStatus where
  | complete : WStatus
  | failed : WStatus
deriving DecidableEq, BEq

/-- One attempted `conversations` update: the status and content in its
payload, and whether the `execute()` call succeeded. -/
structure WriteAttempt where
  status : WStatus
  content : Option String
  ok : Bool
deriving DecidableEq

/-- Environment of one background run: outcomes of the message fetch, the
context select, and — per route — of the generation call and of the two
possible status updates.  `Except.error` carries the `str(e)` of the raised
exception. -/
structure BgEnv where
  fetchOk : Bool
  rows : List Row
  messageId : String
  contextLimit : Nat
  directResult : Except String String
  reactResult : Except String String
  completeWrite : Except String Unit
  failWriteOk : Bool

/-- The body of the `try` block of `_process_message_background`: either the
writes it performed, or the exception message together with the writes
performed before it was raised. -/
def bgTryBody (env : BgEnv) : Except (String × List WriteAttempt) (List WriteAttempt) :=
  if !env.fetchOk then
    Except.error ("Message not found during background processing", [])
  else
    let ctx := bgContext env.rows env.messageId env.contextLimit
    let route := bgRoute (bgLastUserMessage ctx)
    let generated := if route = Route.react then env.reactResult else env.directResult
    match generated with
    | Except.error e => Except.error (e, [])
    | Except.ok content =>
      match env.completeWrite with
      | Except.ok _ => Except.ok [⟨WStatus.complete, some content, true⟩]
      | Except.error e => Except.error (e, [⟨WStatus.complete, some content, false⟩])

/-- Models `_process_message_background` as the sequence of update attempts it
performs: the outer `except` appends one `status=failed` attempt whose content
is `"Processing failed: " ++ str(e)` and whose own failure is swallowed
(`except: pass`), after which the task returns either way. -/
def processMessageBackground (env : BgEnv) : List WriteAttempt :=
  match bgTryBody env with
  | Except.ok writes => writes
  | Except.error (e, writes) =>
    writes ++ [⟨WStatus.failed, some ("Processing failed: " ++ e), env.failWriteOk⟩]

/-- A successful terminal-status write occurs in the run. -/
def hasSuccessfulTerminalWrite (l : List WriteAttempt) : Bool :=
  l.any (fun w => w.ok)

/-- Every `status=failed` payload in the run carries the explanatory
`"Processing failed: ..."` content. -/
def failedWritesCarryContent (l : List WriteAttempt) : Bool :=
  l.all (fun w =>
    match w.status, w.content with
    | WStatus.failed, some c => "Processing failed: ".toList.isPrefixOf c.toList
    | WStatus.failed, none => false
    | WStatus.complete, _ => true)

/-- The run ended in the swallowed-failure state: its last update attempt was
the `status=failed` write and that write itself raised. -/
def endsInSwallowedFailedWrite (l : List WriteAttempt) : Bool :=
  match l.getLast? with
  | some w => w.status == WStatus.failed && !w.ok
  | none => false

/-! ### Python call binding (for the react-path recovery branch)

`generate_react_response` (src/chatbot/chatbot.py:207) recovers from a failed
placeholder update by calling
`memory.add_ai_message(ai_response, metadata, reflection_steps=...)`.
Binding that call against the `add_ai_message` signature follows Python's
argument-binding rules, embedded here for positional-or-keyword parameters. -/

/-- A Python function signature: parameter names after `self`, how many of the
trailing ones have defaults, and whether a `**kwargs` catch-all exists. -/
structure PySig where
  params : List String
  defaults : Nat
  hasKwargs : Bool

/-- Python call binding: `nPos` positional arguments plus the given keyword
names against `sig`; returns the `TypeError` reason when binding fails. -/
def bindCall (sig : PySig) (nPos : Nat) (kwNames : List String) : Except String Unit :=
  if sig.params.length < nPos then
    Except.error "too many positional arguments"
  else if kwNames.any (fun k => !(sig.params.contains k) && !sig.hasKwargs) then
    Except.error "unexpected keyword argument"
  else if kwNames.any (fun k => sig.params.indexOf k < nPos) then
    Except.error "multiple values for argument"
  else if ((sig.params.take (sig.params.length - sig.defaults)).drop nPos).any
      (fun p => !(kwNames.contains p)) then
    Except.error "missing required argument"
  else
    Except.ok ()

/-- The signature of `ChatbotMemory.add_ai_message(self, content, metadata=None)`
(src/chatbot/memory.py:62): two positional-or-keyword parameters, one default,
no `**kwargs`. -/
def addAiMessageSig : PySig :=
  ⟨["content", "metadata"], 1, false⟩

/-- Models the recovery branch of `generate_react_response`: the fallback call
passes 2 positional arguments and the keyword `reflection_steps`; only if that
binds would `add_ai_message` run and persist the answer (returning the row id
of the insert, `""` on insert failure). -/
def reactUpdateRecovery (_aiResponse : String)
    (insertResult : Except String String) : Except String String :=
  match bindCall addAiMessageSig 2 ["reflection_steps"] with
  | Except.error e => Except.error ("TypeError: " ++ e)
  | Except.ok _ =>
    Except.ok (persistMessage insertResult)

/-! ## Theorems -/

/-- Folding row-appends over the buffer concatenates the mapped rows and
leaves the summary and budget untouched. -/
theorem foldl_chatMemoryAddMessage (l : List Row) (m : SummaryBufferMemory) :
    l.foldl (fun acc r => chatMemoryAddMessage acc ⟨r.role, r.content⟩) m
      = ⟨m.buffer ++ l.map (fun r => ⟨r.role, r.content⟩),
         m.movingSummary, m.maxTokenLimit⟩ := by
  induction l generalizing m with
  | nil => simp
  | cons r t ih =>
    rw [List.foldl_cons, ih]
    simp [chatMemoryAddMessage]

/-- Length of a string built from a replicated character. -/
theorem length_mk_replicate (n : Nat) (c : Char) :
    (String.mk (List.replicate n c)).length = n := by
  show (List.replicate n c).length = n
  simp

/-- Claim C1, counterexample: a reflection run whose critique contains none
of the trigger words takes the finalize path and persists a 5-entry trace,
not the 6 entries the claim asserts for both paths (`finalize_response`
appends a single `finalization` step). -/
theorem finalize_path_trace_has_five_entries :
    (runReflection ⟨"draft answer", "A resposta está adequada e boa.", ""⟩ true).needsRevision
      = false
    ∧ (runReflection ⟨"draft answer", "A resposta está adequada e boa.", ""⟩ true).currentSteps.length
      = 5
    ∧ ¬ (runReflection ⟨"draft answer", "A resposta está adequada e boa.", ""⟩ true).currentSteps.length
      = 6 := by
  decide

/-- Claim C1 (corrected): for every reflection run (with a client present so
steps are persisted), `step_count` is 1 or 2, the persisted trace has 6
entries on the revise path but only 5 on the finalize path, and the step
sequence numbers are strictly increasing on both paths. -/
theorem reflection_run_step_invariant (o : Oracle) :
    ((runReflection o true).iterationCount = 1 ∨ (runReflection o true).iterationCount = 2)
    ∧ (runReflection o true).currentSteps.length
        = (if (runReflection o true).needsRevision then 6 else 5)
    ∧ stepsStrictlyIncreasing (runReflection o true).currentSteps := by
  cases h : needsRevisionOf o.reflectContent <;>
    simp [runReflection, generateResponse, reflectOnResponse, reviseResponse,
          finalizeResponse, updateStepsInDb, initialRState, h, stepsStrictlyIncreasing,
          List.chain'_cons]

/-- Claim C2, counterexample: on the utterance "olá pesquisar" the background
task's keyword heuristic yields react (it contains "pesquisar") while the
Query Router's pattern step yields direct (the word "olá" matches the first
direct pattern), so the two heuristics are not the same function. -/
theorem background_route_disagrees_with_pattern_step :
    bgRoute "olá pesquisar" = Route.react
    ∧ quickPatternRoute "olá pesquisar" = some Route.direct := by
  decide

/-- Claim C2 (corrected): the background task derives react exactly when the
last user utterance is nonempty and contains one of its eight keywords as a
lowercase substring, and this heuristic is a different function from the
pattern step of §4.1 — they also disagree on "Desenvolva uma estratégia de
transformação digital completa" (pattern step: react; background: direct). -/
theorem background_route_keyword_heuristic :
    (∀ s : String,
      (s != "" && complexKeywords.any
        (fun k => isSubstrOf k.toList (s.toList.map pyToLower))) = true →
      bgRoute s = Route.react)
    ∧ (∀ s : String,
      (s != "" && complexKeywords.any
        (fun k => isSubstrOf k.toList (s.toList.map pyToLower))) = false →
      bgRoute s = Route.direct)
    ∧ bgRoute "Desenvolva uma estratégia de transformação digital completa" = Route.direct
    ∧ quickPatternRoute "Desenvolva uma estratégia de transformação digital completa"
      = some Route.react := by
  refine ⟨fun s hs => ?_, fun s hs => ?_, by decide, by decide⟩ <;>
    · simp only [bgRoute, hs]
      rfl

/-- Claim C2, witness: the keyword characterization applied to a concrete
utterance containing "pesquisar". -/
theorem background_route_keyword_heuristic_witness :
    bgRoute "pesquisar preços" = Route.react :=
  background_route_keyword_heuristic.1 "pesquisar preços" (by decide)

/-- Claim C3, counterexample: a background run whose generation raises and
whose failed-status update also raises terminates with no successful write at
all — the message stays in processing, refuting "never terminates without
writing a terminal status" for every exception. -/
theorem background_run_can_end_without_terminal_write :
    hasSuccessfulTerminalWrite (processMessageBackground
      ⟨true, [], "msg-1", 10, Except.error "LLM timeout", Except.error "LLM timeout",
       Except.ok (), false⟩) = false := by
  decide

/-- Claim C3 (corrected): every background run either performs a successful
terminal-status write, or ends with the failed-status write itself raising
(swallowed by the bare except); and every failed-status payload it attempts
carries the explanatory "Processing failed: ..." content. -/
theorem background_terminal_write_or_swallowed_failure (env : BgEnv) :
    (hasSuccessfulTerminalWrite (processMessageBackground env)
      || endsInSwallowedFailedWrite (processMessageBackground env)) = true
    ∧ failedWritesCarryContent (processMessageBackground env) = true := by
  unfold processMessageBackground bgTryBody
  cases hf : env.fetchOk <;>
    simp [hasSuccessfulTerminalWrite, endsInSwallowedFailedWrite, failedWritesCarryContent]
  · cases env.failWriteOk <;> simp [List.isPrefixOf] <;> rfl
  · cases hg : (if bgRoute (bgLastUserMessage (bgContext env.rows env.messageId env.contextLimit))
        = Route.react then env.reactResult else env.directResult) with
    | error e =>
      cases env.failWriteOk <;> simp [List.isPrefixOf] <;> rfl
    | ok c =>
      cases hw : env.completeWrite with
      | ok u => simp
      | error e => cases env.failWriteOk <;> simp [List.isPrefixOf] <;> rfl

/-- Claim C4, counterexample: when the complete-status write raises, the run
attempts it exactly once and falls into the failure handler — the terminal
write is never retried. -/
theorem final_complete_write_attempted_once :
    processMessageBackground
      ⟨true, [], "m1", 10, Except.ok "resposta", Except.ok "resposta",
       Except.error "db down", true⟩ =
      [⟨WStatus.complete, some "resposta", false⟩,
       ⟨WStatus.failed, some "Processing failed: db down", true⟩]
    ∧ ((processMessageBackground
      ⟨true, [], "m1", 10, Except.ok "resposta", Except.ok "resposta",
       Except.error "db down", true⟩).filter
        (fun w => w.status == WStatus.complete)).length = 1 := by
  decide

/-- Claim C4 (corrected): if the final terminal write raises, it is not
retried; the run records that single failed attempt and then makes one
failed-status write attempt with explanatory content. -/
theorem final_write_failure_not_retried (env : BgEnv) (c msg : String)
    (h1 : env.fetchOk = true) (h2 : env.directResult = Except.ok c)
    (h3 : env.reactResult = Except.ok c) (h4 : env.completeWrite = Except.error msg) :
    processMessageBackground env =
      [⟨WStatus.complete, some c, false⟩,
       ⟨WStatus.failed, some ("Processing failed: " ++ msg), env.failWriteOk⟩] := by
  unfold processMessageBackground bgTryBody
  cases hr : bgRoute (bgLastUserMessage (bgContext env.rows env.messageId env.contextLimit)) <;>
    simp [h1, h2, h3, h4, hr]

/-- Claim C4, witness: the no-retry theorem applied to a concrete run whose
complete-status write raises. -/
theorem final_write_failure_not_retried_witness :
    processMessageBackground
      ⟨true, [], "m2", 10, Except.ok "ok", Except.ok "ok",
       Except.error "timeout", false⟩ =
      [⟨WStatus.complete, some "ok", false⟩,
       ⟨WStatus.failed, some "Processing failed: timeout", false⟩] :=
  final_write_failure_not_retried _ "ok" "timeout" rfl rfl rfl rfl

/-- Claim C5, counterexample: three messages of 3000 characters each (an
estimated 2250 tokens against the budget of 2000) are loaded with an empty
summary and all three retained verbatim, refuting "non-empty summary and
fewer than N recent messages". -/
theorem memory_load_over_budget_keeps_all_messages :
    estimatedTokens (loadConversationHistory
        [⟨"m1", "user", String.mk (List.replicate 3000 'x')⟩,
         ⟨"m2", "assistant", String.mk (List.replicate 3000 'y')⟩,
         ⟨"m3", "user", String.mk (List.replicate 3000 'z')⟩] freshMemory).buffer
      > freshMemory.maxTokenLimit
    ∧ (loadConversationHistory
        [⟨"m1", "user", String.mk (List.replicate 3000 'x')⟩,
         ⟨"m2", "assistant", String.mk (List.replicate 3000 'y')⟩,
         ⟨"m3", "user", String.mk (List.replicate 3000 'z')⟩] freshMemory).movingSummary = ""
    ∧ (loadConversationHistory
        [⟨"m1", "user", String.mk (List.replicate 3000 'x')⟩,
         ⟨"m2", "assistant", String.mk (List.replicate 3000 'y')⟩,
         ⟨"m3", "user", String.mk (List.replicate 3000 'z')⟩] freshMemory).buffer.length = 3 := by
  have hb : (loadConversationHistory
        [⟨"m1", "user", String.mk (List.replicate 3000 'x')⟩,
         ⟨"m2", "assistant", String.mk (List.replicate 3000 'y')⟩,
         ⟨"m3", "user", String.mk (List.replicate 3000 'z')⟩] freshMemory).buffer
      = [⟨"user", String.mk (List.replicate 3000 'x')⟩,
         ⟨"assistant", String.mk (List.replicate 3000 'y')⟩,
         ⟨"user", String.mk (List.replicate 3000 'z')⟩] := by
    rw [loadConversationHistory, foldl_chatMemoryAddMessage]
    rfl
  refine ⟨?_, ?_, ?_⟩
  · rw [hb]
    simp only [estimatedTokens, List.map, List.sum_cons, List.sum_nil,
               length_mk_replicate, freshMemory]
    norm_num
  · rw [loadConversationHistory, foldl_chatMemoryAddMessage]
    rfl
  · rw [hb]
    rfl

/-- Claim C5 (corrected): loading Context Memory from persisted messages
appends every user/assistant row to the buffer verbatim and leaves the
summary empty, for any number of rows and regardless of the token budget —
the load path adds via `chat_memory.add_message`, which never triggers the
library's prune/summarize step. -/
theorem memory_load_retains_all_and_empty_summary (rows : List Row) :
    (loadConversationHistory rows freshMemory).movingSummary = ""
    ∧ (loadConversationHistory rows freshMemory).buffer.length
        = (rows.filter (fun r => r.role == "user" || r.role == "assistant")).length := by
  simp [loadConversationHistory, foldl_chatMemoryAddMessage, freshMemory]

/-- Claim C6 (confirmed): any utterance whose normalized text matches some
direct pattern is classified direct without invoking the LLM fallback, no
matter what the fallback would answer and whether a react pattern also
matches. -/
theorem direct_pattern_forces_direct_route (u : String) (llm : Except Unit String)
    (h : directPatterns.any (fun p => reSearch p (pyNormalize u)) = true) :
    routeQuery u llm = (Route.direct, false) := by
  simp [routeQuery, quickPatternRoute, h]

/-- Claim C6, witness: a concrete utterance matching a direct pattern and a
react pattern, with a fallback oracle that would answer react, still routes
direct without the fallback. -/
theorem direct_pattern_forces_direct_route_witness :
    directPatterns.any (fun p => reSearch p
      (pyNormalize "Olá, desenvolva uma estratégia de transformação digital completa")) = true
    ∧ reactPatterns.any (fun p => reSearch p
      (pyNormalize "Olá, desenvolva uma estratégia de transformação digital completa")) = true
    ∧ routeQuery "Olá, desenvolva uma estratégia de transformação digital completa"
        (Except.ok "REACT") = (Route.direct, false) :=
  ⟨by decide, by decide, direct_pattern_forces_direct_route _ _ (by decide)⟩

/-- Claim C7 (confirmed): any utterance matching a react pattern and no
direct pattern is classified react without the LLM fallback; in particular
the Scenario B utterance is classified react by the pattern step. -/
theorem react_pattern_forces_react_route (u : String) (llm : Except Unit String)
    (hd : directPatterns.any (fun p => reSearch p (pyNormalize u)) = false)
    (hr : reactPatterns.any (fun p => reSearch p (pyNormalize u)) = true) :
    routeQuery u llm = (Route.react, false)
    ∧ quickPatternRoute "Desenvolva uma estratégia de transformação digital completa"
      = some Route.react :=
  ⟨by simp [routeQuery, quickPatternRoute, hd, hr], by decide⟩

/-- Claim C7, witness: the Scenario B utterance routed react with an erroring
fallback oracle (which is therefore not consulted). -/
theorem react_pattern_forces_react_route_witness :
    routeQuery "Desenvolva uma estratégia de transformação digital completa"
      (Except.error ()) = (Route.react, false) :=
  (react_pattern_forces_react_route _ _ (by decide) (by decide)).1

/-- Claim C8 (confirmed): on an utterance matching neither pattern table, an
exception in the fallback call resolves to direct (never propagating, since
`llmRoute` is total on the error case), and a fallback reply without the
react token — compared after strip and uppercase — also resolves to
direct. -/
theorem router_fallback_error_defaults_direct (u : String) (reply : String)
    (h : quickPatternRoute u = none)
    (hr : isSubstrOf "REACT".toList ((pyStrip reply.toList).map pyToUpper) = false) :
    (∀ e : Unit, routeQuery u (Except.error e) = (Route.direct, true))
    ∧ routeQuery u (Except.ok reply) = (Route.direct, true) := by
  constructor
  · intro e
    simp [routeQuery, h, llmRoute]
  · have h2 : routeQuery u (Except.ok reply) = (llmRoute (Except.ok reply), true) := by
      simp [routeQuery, h]
    rw [h2]
    show (if isSubstrOf "REACT".toList ((pyStrip reply.toList).map pyToUpper)
          then Route.react else Route.direct, true) = (Route.direct, true)
    rw [hr]
    simp

/-- Claim C8, witness: a pattern-free utterance with an erroring fallback and
with a "DIRECT" reply, both resolving to direct with the fallback invoked. -/
theorem router_fallback_error_defaults_direct_witness :
    routeQuery "xyzzy" (Except.error ()) = (Route.direct, true)
    ∧ routeQuery "xyzzy" (Except.ok "DIRECT") = (Route.direct, true) :=
  ⟨(router_fallback_error_defaults_direct "xyzzy" "DIRECT" (by decide) (by decide)).1 (),
   (router_fallback_error_defaults_direct "xyzzy" "DIRECT" (by decide) (by decide)).2⟩

/-- Claim C9 (confirmed): appending a user or assistant message always
advances the in-memory buffer; the returned message id is the empty string
when the persistence insert raises and the new row id when it succeeds. -/
theorem memory_append_persistence_failure_policy (m : SummaryBufferMemory) (content : String)
    (md : List (String × String)) (e rowId : String) :
    (addUserMessage m content md (Except.error e)).1.buffer = m.buffer ++ [⟨"user", content⟩]
    ∧ (addUserMessage m content md (Except.error e)).2 = ""
    ∧ (addUserMessage m content md (Except.ok rowId)).1.buffer = m.buffer ++ [⟨"user", content⟩]
    ∧ (addUserMessage m content md (Except.ok rowId)).2 = rowId
    ∧ (addAiMessage m content md (Except.error e)).1.buffer = m.buffer ++ [⟨"assistant", content⟩]
    ∧ (addAiMessage m content md (Except.error e)).2 = ""
    ∧ (addAiMessage m content md (Except.ok rowId)).1.buffer = m.buffer ++ [⟨"assistant", content⟩]
    ∧ (addAiMessage m content md (Except.ok rowId)).2 = rowId :=
  ⟨rfl, rfl, rfl, rfl, rfl, rfl, rfl, rfl⟩

/-- Claim C10 (confirmed): the react-path recovery branch's fallback call
binds the keyword `reflection_steps` against a signature that has no such
parameter and no kwargs, so it raises a TypeError for every input and never
reaches the persistence insert. -/
theorem react_recovery_branch_always_type_errors (aiResponse : String)
    (insertResult : Except String String) :
    reactUpdateRecovery aiResponse insertResult
      = Except.error "TypeError: unexpected keyword argument" := rfl

end Fridday
